import Mathlib

/-!
Shallow embedding of the hiberman suspend conductor
(`src/hiberman/src/suspend.rs`).

External collaborators (cookie writer, snapshot device, image mover,
splitter, metrics, logging, volume manager, key manager) are not part of
the given sources; their call outcomes are supplied by an `Env` oracle and
their state effects are modelled from the spec where noted.  The conductor
functions (`hibernate`, `suspend_system`, `snapshot_and_save`,
`write_image`, `move_image`, `delete_data_if_disk_full`) mirror the Rust
source control flow: every `?` becomes an explicit early return of the
error, every `assert!` a panic, and observable actions are recorded in an
event trace carried by the state.
-/

/-- Hibernate cookie values. Modelled from the spec: the cookie module is
not among the given sources; §3 lists the values `NoResume` and
`ResumeReady`. -/
inductive CookieValue where
  | NoResume
  | ResumeReady
deriving DecidableEq, Repr

/-- Log sinks of the log router (`HiberlogOut` in the source): syslog, a
file-backed sink, or the in-memory buffer. -/
inductive LogSink where
  | syslog
  | file
  | memory
deriving DecidableEq, Repr

/-- Observable events emitted by the conductor, in program order. -/
inductive Event where
  | warned (tag : String)
  | redirectLog (sink : LogSink)
  | sync
  | freezeUserspace
  | atomicSnapshot
  | metadataWrite
  | cookieWrite (v : CookieValue)
  | metricsFlush
  | resetLog
  | powerOff
  | replayLogs (pushToSyslog tagAsResume : Bool)
  | readAndSendMetrics
  | diskPressureCheck (wouldFree : Bool)
  | unlinkFile (name : String)
deriving DecidableEq, Repr

/-- Error kinds (`HibernateError` variants relevant to the claims, plus a
generic kind for failures of external collaborators). -/
inductive ErrKind where
  | updateEngineBusy
  | shutdown
  | external (tag : String)
deriving DecidableEq, Repr

/-- An `anyhow`-style error: a kind plus the stack of `.context(...)`
strings, most recent first. -/
structure AErr where
  kind : ErrKind
  contexts : List String
deriving DecidableEq, Repr

/-- Outcome of running a fragment of the conductor: normal return,
propagated error (`?`), or a panic (`assert!` failure, division by
zero). -/
inductive Outcome (α : Type) where
  | ok (a : α)
  | err (e : AErr)
  | panicked (msg : String)
deriving DecidableEq, Repr

/-- Rust `Result::is_ok`. -/
def Outcome.isOk : Outcome α → Bool
  | .ok _ => true
  | _ => false

/-- An external-call error with no context yet. -/
def extErr (tag : String) : AErr := { kind := .external tag, contexts := [] }

/-- Constant `META_TAG_SIZE`. Modelled from the spec: `hibermeta` is not among the
given sources; §6 gives "an authentication tag of META_TAG_SIZE bytes
(typically 16)". -/
def META_TAG_SIZE : Nat := 16

/-- Constant `META_FLAG_VALID`. Modelled from the spec: `hibermeta` is not among
the given sources; §3 only requires a designated VALID bit in the flags
bitfield, so bit 0 is used. -/
def META_FLAG_VALID : Nat := 1

/-- Constant `BUFFER_PAGES`. Modelled from the spec: `hiberutil` is not among the
given sources; §8 scenario S1 fixes `BUFFER_PAGES = 32`. -/
def BUFFER_PAGES : Int := 32

/-- Constant `LOW_DISK_FREE_THRESHOLD_PERCENT` (suspend.rs line 70). -/
def LOW_DISK_FREE_THRESHOLD_PERCENT : Nat := 10

/-- Constant `SUSPEND_SWAPPINESS` (suspend.rs line 67). -/
def SUSPEND_SWAPPINESS : Int := 100

/-- The all-zero authentication tag, `[0u8; META_TAG_SIZE]`. -/
def zeroTag : List Nat := List.replicate META_TAG_SIZE 0

/-- The modelled fields of `HibernateMetadata`: the authentication tag,
the image size and the flags bitfield (key material is opaque). -/
structure HibernateMetadata where
  dataTag : List Nat
  imageSize : Int
  flags : Nat
deriving DecidableEq, Repr

/-- Struct `libc::statvfs` restricted to the two fields the conductor reads. -/
structure FsStats where
  f_bfree : Nat
  f_blocks : Nat
deriving DecidableEq, Repr

/-- Struct `HibernateOptions` restricted to the option the core reads. -/
structure HibernateOptions where
  dryRun : Bool
deriving DecidableEq, Repr

/-- Parameters of one `ImageMover` run: bytes to move, source chunk size,
destination chunk size, and whether `pad_output_length` was set. -/
structure MoverSpec where
  length : Int
  sourceChunk : Int
  destChunk : Int
  padOutput : Bool
deriving DecidableEq, Repr

/-- The modelled machine state threaded through the conductor. -/
structure St where
  cookie : CookieValue
  metadata : HibernateMetadata
  logSink : LogSink
  trace : List Event
  movers : List MoverSpec
deriving DecidableEq, Repr

/-- Append an observable event to the trace. -/
def addEvent (s : St) (e : Event) : St := { s with trace := s.trace ++ [e] }

/-- Record that an `ImageMover` with the given parameters was constructed
and run. -/
def addMover (s : St) (m : MoverSpec) : St := { s with movers := s.movers ++ [m] }

/-- Initial state: cookie as given, metadata freshly created
(`data_tag` all zero per spec §3), logging to syslog, empty trace. -/
def initSt (c : CookieValue) : St :=
  { cookie := c
    metadata := { dataTag := zeroTag, imageSize := 0, flags := 0 }
    logSink := .syslog
    trace := []
    movers := [] }

/-- Oracle for the outcomes of all external calls made during one
`hibernate` attempt, in program order.  A `Bool` field is the success of
the corresponding fallible call; an `Option` field is `none` when the
call itself errors. -/
structure Env where
  setupLvOk : Bool
  logAttemptOk : Bool
  createLvSnapshotFilesOk : Bool
  isLvm : Option Bool
  filesExist : Bool
  preallocHeaderOk : Bool
  preallocHiberOk : Bool
  preallocMetadataOk : Bool
  preallocLogResumeOk : Bool
  preallocMetricsResumeOk : Bool
  preallocMetricsSuspendOk : Bool
  openMetricsOk : Bool
  preallocLogSuspendOk : Bool
  updateEngineIdle : Option Bool
  statsOk : Bool
  fsBfree : Nat
  fsBlocks : Nat
  lockMemoryOk : Bool
  swappinessNewOk : Bool
  setSwappinessOk : Bool
  loadPublicKeyOk : Bool
  installKeyOk : Bool
  preallocMemOk : Bool
  snapDevNewOk : Bool
  freezeOk : Bool
  blockPathOk : Bool
  atomicSnapshotR : Option Bool
  getImageSizeR : Option Int
  splitterMetaInit : Int
  pageSize : Int
  metaAfterProbe : Int
  metaAfterHeader : Int
  probeMoverOk : Bool
  headerMoverOk : Bool
  bodyMoverOk : Bool
  tagAfterMove : List Nat
  rewindOk : Bool
  metaWriteOk : Bool
  cookieReadyOk : Bool
  metricsFlushOk : Bool
  cookieClearOk : Bool
deriving DecidableEq, Repr

namespace SuspendConductor

/-- Method `SuspendConductor::delete_data_if_disk_full` (suspend.rs lines
341-349): compute the free-space percentage (u64 arithmetic: the
multiplication wraps at 2^64 and division by zero panics, as in Rust) and
log the decision.  The unlinking is a TODO in the source: neither branch
emits any `Event.unlinkFile`. -/
def delete_data_if_disk_full (fs_stats : FsStats) (s : St) :
    Outcome Unit × St :=
  if fs_stats.f_blocks = 0 then (.panicked "attempt to divide by zero", s)
  else
    let free_percent := fs_stats.f_bfree * 100 % 2 ^ 64 / fs_stats.f_blocks
    if free_percent < LOW_DISK_FREE_THRESHOLD_PERCENT then
      (.ok (), addEvent s (.diskPressureCheck true))
    else
      (.ok (), addEvent s (.diskPressureCheck false))

/-- The part of `move_image` after the header-probe stage (suspend.rs
lines 312-337): assert the splitter's `meta_size` is nonzero, move
`meta_size` bytes of header in chunks of `page_size * BUFFER_PAGES`, then
move `image_size - meta_size` bytes of body (with `meta_size` re-read
from the splitter, supplied by the oracle as `metaAfterHeader`) with the
output length padded to a page multiple.  On success the splitter has
written the authentication tag into the metadata (modelled from spec
§4.3: the splitter updates the tag incrementally during the body
move). -/
def move_image_stages (env : Env) (meta_size splitterMeta image_size : Int)
    (s : St) : Outcome Unit × St :=
  if splitterMeta = 0 then
    (.panicked "assertion failed: splitter.meta_size != 0", s)
  else
    let s1 := addMover s
      ⟨meta_size, env.pageSize, env.pageSize * BUFFER_PAGES, false⟩
    if !env.headerMoverOk then
      (.err { kind := .external "ImageMover",
              contexts := ["Failed to write out header pages"] }, s1)
    else
      let meta_size2 := env.metaAfterHeader
      let s2 := addMover s1
        ⟨image_size - meta_size2, env.pageSize, env.pageSize * BUFFER_PAGES, true⟩
      if !env.bodyMoverOk then
        (.err { kind := .external "ImageMover",
                contexts := ["Failed to write out data pages"] }, s2)
      else
        (.ok (), { s2 with metadata :=
          { s2.metadata with dataTag := env.tagAfterMove } })

/-- Method `SuspendConductor::move_image` (suspend.rs lines 288-338): if the
splitter's `meta_size` is zero on entry, first move a single page so the
splitter can parse the header (after which the splitter's `meta_size` is
the oracle's `metaAfterProbe` and the remaining header size is
`metaAfterProbe - page_size`); otherwise the header size is `meta_size`
itself.  Then run the header and body stages. -/
def move_image (env : Env) (metaInit image_size : Int) (s : St) :
    Outcome Unit × St :=
  if metaInit = 0 then
    let s1 := addMover s ⟨env.pageSize, env.pageSize, env.pageSize, false⟩
    if !env.probeMoverOk then
      (.err { kind := .external "ImageMover",
              contexts := ["Failed to move first page"] }, s1)
    else
      move_image_stages env (env.metaAfterProbe - env.pageSize)
        env.metaAfterProbe image_size s1
  else
    move_image_stages env metaInit metaInit image_size s

/-- Method `SuspendConductor::write_image` (suspend.rs lines 253-280): query the
image size, stream the image through the splitter, assert the resulting
tag is nonzero, then record the image size in the metadata and set the
VALID flag. -/
def write_image (env : Env) (s : St) : Outcome Unit × St :=
  match env.getImageSizeR with
  | none => (.err (extErr "get_image_size"), s)
  | some image_size =>
    match move_image env env.splitterMetaInit image_size s with
    | (.ok _, s1) =>
      if s1.metadata.dataTag = zeroTag then
        (.panicked "assertion failed: self.metadata.data_tag != [0u8; META_TAG_SIZE]", s1)
      else
        (.ok (), { s1 with metadata :=
          { s1.metadata with imageSize := image_size,
                             flags := s1.metadata.flags ||| META_FLAG_VALID } })
    | (.err e, s1) => (.err e, s1)
    | (.panicked m, s1) => (.panicked m, s1)

/-- The final cookie clear of `snapshot_and_save` (suspend.rs lines
246-249): `set_hibernate_cookie(.., NoResume)` with the context
"Failed to clear hibernate cookie" attached on failure.  On success the
on-disk cookie becomes `NoResume`; on failure it is unchanged. -/
def clear_cookie_step (env : Env) (s : St) : Outcome Unit × St :=
  if env.cookieClearOk then
    (.ok (), { s with cookie := .NoResume,
                      trace := s.trace ++ [.cookieWrite .NoResume] })
  else
    (.err { kind := .external "set_hibernate_cookie",
            contexts := ["Failed to clear hibernate cookie"] }, s)

/-- Method `SuspendConductor::snapshot_and_save` (suspend.rs lines 197-250): the
fork-point.  On the suspend branch: write the image, rewind and write the
metadata file, set the cookie to `ResumeReady`, flush metrics (warn but
proceed on failure), redirect logs to memory, and, unless dry-run, power
off — when the power-off syscall returns, the shutdown error propagates
out immediately.  On the resume branch: reset the log router and redirect
logs to memory.  Both branches then clear the cookie. -/
def snapshot_and_save (env : Env) (opts : HibernateOptions) (s : St) :
    Outcome Unit × St :=
  if !env.blockPathOk then (.err (extErr "path_to_stateful_block"), s)
  else
    let dry_run := opts.dryRun
    match env.atomicSnapshotR with
    | none => (.err (extErr "atomic_snapshot"), s)
    | some inSuspend =>
      let s0 := addEvent s .atomicSnapshot
      if inSuspend then
        match write_image env s0 with
        | (.ok _, s1) =>
          if !env.rewindOk then (.err (extErr "rewind"), s1)
          else if !env.metaWriteOk then (.err (extErr "write_to_disk"), s1)
          else
            let s2 := addEvent s1 .metadataWrite
            if !env.cookieReadyOk then
              (.err (extErr "set_hibernate_cookie"), s2)
            else
              let s3 := { s2 with
                            cookie := .ResumeReady,
                            trace := s2.trace ++ [.cookieWrite .ResumeReady] }
              let s4 :=
                if env.metricsFlushOk then addEvent s3 .metricsFlush
                else addEvent s3 (.warned "Failed to flush suspend metrics")
              let s5 := addEvent { s4 with logSink := .memory }
                (.redirectLog .memory)
              if !dry_run then
                (.err { kind := .shutdown, contexts := ["Failed to shut down"] },
                 addEvent s5 .powerOff)
              else clear_cookie_step env s5
        | (.err e, s1) => (.err e, s1)
        | (.panicked m, s1) => (.panicked m, s1)
      else
        let s1 := addEvent (addEvent s0 .resetLog)
          (.redirectLog .memory)
        clear_cookie_step env { s1 with logSink := .memory }

/-- Method `SuspendConductor::suspend_system` (suspend.rs lines 182-192): open
the snapshot device, freeze userspace, and run `snapshot_and_save`. -/
def suspend_system (env : Env) (opts : HibernateOptions) (s : St) :
    Outcome Unit × St :=
  if !env.snapDevNewOk then (.err (extErr "SnapshotDevice::new"), s)
  else if !env.freezeOk then (.err (extErr "freeze_userspace"), s)
  else snapshot_and_save env opts (addEvent s .freezeUserspace)

/-- The tail of `hibernate` after the inner suspend returns (suspend.rs
lines 166-176): redirect logs back to syslog, replay logs with
`push_to_syslog = result.is_ok() && !dry_run` and
`tag_as_resume = !dry_run`, read and send the buffered metrics, run the
disk-pressure check, and return the inner result unchanged. -/
def finish_attempt (opts : HibernateOptions) (fs_stats : FsStats)
    (result : Outcome Unit) (s1 : St) : Outcome Unit × St :=
  let s2 := addEvent { s1 with logSink := .syslog } (.redirectLog .syslog)
  let s3 := addEvent s2 (.replayLogs (result.isOk && !opts.dryRun) (!opts.dryRun))
  let s4 := addEvent s3 .readAndSendMetrics
  match delete_data_if_disk_full fs_stats s4 with
  | (.ok _, s5) => (result, s5)
  | (.err e, s5) => (.err e, s5)
  | (.panicked m, s5) => (.panicked m, s5)

/-- Dispatch on the inner suspend's result (suspend.rs line 165 and
176): a panic unwinds immediately; otherwise the captured `result` flows
through the drain (`finish_attempt`) and is returned unchanged. -/
def run_tail (opts : HibernateOptions) (fs_stats : FsStats)
    (p : Outcome Unit × St) : Outcome Unit × St :=
  match p with
  | (.panicked m, s1) => (.panicked m, s1)
  | (result, s1) => finish_attempt opts fs_stats result s1

/-- Method `SuspendConductor::hibernate` (suspend.rs lines 95-177): the public
entry point, mirroring the source order: LV setup, the soft
`log_hibernate_attempt`, preallocations, the update-engine gate, FS
stats, memory lock, swappiness, keys, log redirection to file, sync,
memory preallocation, the inner suspend, and the unconditional log/metric
drain and disk-pressure check before returning the inner result
unchanged (panics from the inner suspend unwind immediately). -/
def hibernate (env : Env) (opts : HibernateOptions) (s : St) :
    Outcome Unit × St :=
  if !env.setupLvOk then (.err (extErr "setup_hibernate_lv"), s)
  else
  let s := if env.logAttemptOk then s
           else addEvent s (.warned "Failed to log hibernate attempt")
  if !env.createLvSnapshotFilesOk then
    (.err (extErr "create_lv_snapshot_files"), s)
  else
  match env.isLvm with
  | none => (.err (extErr "is_lvm_system"), s)
  | some is_lvm =>
  let files_exist := env.filesExist
  let _should_zero := is_lvm && !files_exist
  if !env.preallocHeaderOk then (.err (extErr "preallocate_header_file"), s)
  else if !env.preallocHiberOk then (.err (extErr "preallocate_hiberfile"), s)
  else if !env.preallocMetadataOk then
    (.err (extErr "preallocate_metadata_file"), s)
  else if !env.preallocLogResumeOk then
    (.err (extErr "preallocate_log_file resume"), s)
  else if !env.preallocMetricsResumeOk then
    (.err (extErr "preallocate_metrics_file resume"), s)
  else if !env.preallocMetricsSuspendOk then
    (.err (extErr "preallocate_metrics_file suspend"), s)
  else if !env.openMetricsOk then (.err (extErr "open_metrics_file"), s)
  else if !env.preallocLogSuspendOk then
    (.err (extErr "preallocate_log_file suspend"), s)
  else
  match env.updateEngineIdle with
  | none => (.err (extErr "is_update_engine_idle"), s)
  | some idle =>
  if !idle then
    (.err { kind := .updateEngineBusy,
            contexts := ["Update engine is active"] }, s)
  else
  if !env.statsOk then (.err (extErr "statvfs"), s)
  else
  let fs_stats : FsStats := { f_bfree := env.fsBfree, f_blocks := env.fsBlocks }
  if !env.lockMemoryOk then (.err (extErr "lock_process_memory"), s)
  else if !env.swappinessNewOk then (.err (extErr "Swappiness::new"), s)
  else if !env.setSwappinessOk then (.err (extErr "set_swappiness"), s)
  else if !env.loadPublicKeyOk then (.err (extErr "load_public_key"), s)
  else if !env.installKeyOk then (.err (extErr "install_new_metadata_key"), s)
  else
  let s := addEvent { s with logSink := .file } (.redirectLog .file)
  let s := addEvent s .sync
  if !env.preallocMemOk then
    (.err { kind := .external "prealloc_mem",
            contexts := ["Failed to preallocate memory for hibernate"] }, s)
  else
  run_tail opts fs_stats (suspend_system env opts s)

end SuspendConductor

/-- Event `a` occurs strictly before every occurrence of `b` in the trace `t`
(vacuously true when either event is absent). -/
def eventBefore (a b : Event) (t : List Event) : Prop :=
  ∀ i j, t.get? i = some a → t.get? j = some b → i < j

/-- Boolean checker for `eventBefore`: once `b` is seen, no `a` may
follow (at or after the first `b`). -/
def pairOrdered (a b : Event) : List Event → Bool
  | [] => true
  | x :: xs => if x = b then decide (a ∉ xs) else pairOrdered a b xs

theorem pairOrdered_sound {a b : Event} (hne : a ≠ b) :
    ∀ {t : List Event}, pairOrdered a b t = true → eventBefore a b t := by
  intro t
  induction t with
  | nil =>
    intro _ i j hi _
    simp [List.get?] at hi
  | cons x xs ih =>
    intro h i j hi hj
    by_cases hxb : x = b
    · have hna : a ∉ xs := by
        rw [pairOrdered, if_pos hxb] at h
        exact of_decide_eq_true h
      exfalso
      match i with
      | 0 =>
        have hxa : x = a := Option.some.inj hi
        exact hne (by rw [← hxa]; exact hxb)
      | (i' + 1) =>
        exact hna (List.get?_mem (hi : xs.get? i' = some a))
    · rw [pairOrdered, if_neg hxb] at h
      match j with
      | 0 =>
        exact absurd (Option.some.inj hj) hxb
      | (j' + 1) =>
        match i with
        | 0 => exact Nat.succ_pos j'
        | (i' + 1) =>
          exact Nat.succ_lt_succ
            (ih h i' j' (hi : xs.get? i' = some a) (hj : xs.get? j' = some b))

/-- The ordering property of claim C4 over an event trace: `sync`,
`FREEZE_USERSPACE` and `ATOMIC_SNAPSHOT` occur, `sync` strictly before
`FREEZE_USERSPACE`, `ATOMIC_SNAPSHOT` strictly after `FREEZE_USERSPACE`,
every metadata write strictly before every cookie write of `ResumeReady`,
and the latter strictly before every power-off call. -/
def hibTraceOk (t : List Event) : Prop :=
  Event.sync ∈ t ∧ Event.freezeUserspace ∈ t ∧ Event.atomicSnapshot ∈ t ∧
  eventBefore .sync .freezeUserspace t ∧
  eventBefore .freezeUserspace .atomicSnapshot t ∧
  eventBefore .metadataWrite (.cookieWrite .ResumeReady) t ∧
  eventBefore (.cookieWrite .ResumeReady) .powerOff t

/-- Boolean checker for `hibTraceOk`. -/
def hibTraceChk (t : List Event) : Bool :=
  decide (Event.sync ∈ t) && decide (Event.freezeUserspace ∈ t) &&
  decide (Event.atomicSnapshot ∈ t) &&
  pairOrdered .sync .freezeUserspace t &&
  pairOrdered .freezeUserspace .atomicSnapshot t &&
  pairOrdered .metadataWrite (.cookieWrite .ResumeReady) t &&
  pairOrdered (.cookieWrite .ResumeReady) .powerOff t

theorem hibTraceChk_sound {t : List Event} (h : hibTraceChk t = true) :
    hibTraceOk t := by
  simp only [hibTraceChk, Bool.and_eq_true, decide_eq_true_eq] at h
  obtain ⟨⟨⟨⟨⟨⟨h1, h2⟩, h3⟩, h4⟩, h5⟩, h6⟩, h7⟩ := h
  exact ⟨h1, h2, h3,
    pairOrdered_sound (by decide) h4,
    pairOrdered_sound (by decide) h5,
    pairOrdered_sound (by decide) h6,
    pairOrdered_sound (by decide) h7⟩

/-- The sequence of cookie values written to disk during a run. -/
def cookieWrites (t : List Event) : List CookieValue :=
  t.filterMap (fun e =>
    match e with
    | .cookieWrite v => some v
    | _ => none)

/-- All fallible external calls before the update-engine gate succeed
(the soft `log_hibernate_attempt` may still fail). -/
def preGateOk (env : Env) : Prop :=
  env.setupLvOk = true ∧
  env.createLvSnapshotFilesOk = true ∧ env.isLvm.isSome = true ∧
  env.preallocHeaderOk = true ∧ env.preallocHiberOk = true ∧
  env.preallocMetadataOk = true ∧ env.preallocLogResumeOk = true ∧
  env.preallocMetricsResumeOk = true ∧ env.preallocMetricsSuspendOk = true ∧
  env.openMetricsOk = true ∧ env.preallocLogSuspendOk = true

/-- The update engine reports idle and all calls from the gate through
`prealloc_mem` succeed. -/
def midOk (env : Env) : Prop :=
  env.updateEngineIdle = some true ∧ env.statsOk = true ∧
  env.lockMemoryOk = true ∧ env.swappinessNewOk = true ∧
  env.setSwappinessOk = true ∧ env.loadPublicKeyOk = true ∧
  env.installKeyOk = true ∧ env.preallocMemOk = true

/-- A fully successful oracle for the suspend path: update engine idle,
all preparation succeeds, the atomic snapshot returns on the suspend
side, the image write pipeline succeeds (header parsed to 9000 bytes,
nonzero tag), and both cookie writes succeed. -/
def okEnv : Env :=
  { setupLvOk := true, logAttemptOk := true, createLvSnapshotFilesOk := true,
    isLvm := some true, filesExist := false,
    preallocHeaderOk := true, preallocHiberOk := true, preallocMetadataOk := true,
    preallocLogResumeOk := true, preallocMetricsResumeOk := true,
    preallocMetricsSuspendOk := true, openMetricsOk := true,
    preallocLogSuspendOk := true,
    updateEngineIdle := some true, statsOk := true, fsBfree := 50, fsBlocks := 100,
    lockMemoryOk := true, swappinessNewOk := true, setSwappinessOk := true,
    loadPublicKeyOk := true, installKeyOk := true, preallocMemOk := true,
    snapDevNewOk := true, freezeOk := true, blockPathOk := true,
    atomicSnapshotR := some true, getImageSizeR := some 268435456,
    splitterMetaInit := 0, pageSize := 4096, metaAfterProbe := 9000,
    metaAfterHeader := 9000,
    probeMoverOk := true, headerMoverOk := true, bodyMoverOk := true,
    tagAfterMove := 1 :: List.replicate 15 0,
    rewindOk := true, metaWriteOk := true, cookieReadyOk := true,
    metricsFlushOk := true, cookieClearOk := true }

/-- State after the pre-suspend phase from `initSt c`: logs redirected to
the suspend log file and filesystems synced (with the warning event when
`log_hibernate_attempt` failed, i.e. `logOk = false`). -/
def preSt (c : CookieValue) (logOk : Bool) : St :=
  { cookie := c
    metadata := { dataTag := zeroTag, imageSize := 0, flags := 0 }
    logSink := .file
    trace := (if logOk then [] else [.warned "Failed to log hibernate attempt"]) ++
      [.redirectLog .file, .sync]
    movers := [] }

theorem run_tail_ok (opts : HibernateOptions) (fs : FsStats) (a : Unit) (s1 : St) :
    SuspendConductor.run_tail opts fs (.ok a, s1) =
      SuspendConductor.finish_attempt opts fs (.ok a) s1 := rfl

theorem run_tail_err (opts : HibernateOptions) (fs : FsStats) (e : AErr) (s1 : St) :
    SuspendConductor.run_tail opts fs (.err e, s1) =
      SuspendConductor.finish_attempt opts fs (.err e) s1 := rfl

theorem run_tail_panic (opts : HibernateOptions) (fs : FsStats) (m : String) (s1 : St) :
    SuspendConductor.run_tail opts fs (.panicked m, s1) = (.panicked m, s1) := rfl

/-- Partial evaluation of `hibernate` through the pre-suspend phase: when
every preparation call succeeds, the run is the inner suspend from
`preSt` followed by the tail. -/
theorem hibernate_run (env : Env) (opts : HibernateOptions) (c : CookieValue)
    (bl : Bool) (hpre : preGateOk env) (hmid : midOk env)
    (hlog : env.logAttemptOk = bl) :
    SuspendConductor.hibernate env opts (initSt c) =
      SuspendConductor.run_tail opts
        { f_bfree := env.fsBfree, f_blocks := env.fsBlocks }
        (SuspendConductor.suspend_system env opts (preSt c bl)) := by
  obtain ⟨h1, h3, h4, h5, h6, h7, h8, h9, h10, h11, h12⟩ := hpre
  obtain ⟨g1, g2, g3, g4, g5, g6, g7, g8⟩ := hmid
  obtain ⟨e1, e2, e3, e4, e5, e6, e7, e8, e9, e10, e11, e12, e13, e14, e15,
    e16, e17, e18, e19, e20, e21, e22, e23, e24, e25, e26, e27, e28, e29,
    e30, e31, e32, e33, e34, e35, e36, e37, e38, e39, e40⟩ := env
  simp only at h1 h3 h4 h5 h6 h7 h8 h9 h10 h11 h12 g1 g2 g3 g4 g5 g6 g7 g8 hlog
  rcases e4 with _ | lv
  · simp at h4
  · subst h1 h3 h5 h6 h7 h8 h9 h10 h11 h12 g1 g2 g3 g4 g5 g6 g7 g8 hlog
    cases e2 <;> rfl

/-- Partial evaluation of `suspend_system`: when the snapshot device
opens and the freeze succeeds, the run is `snapshot_and_save` from the
post-freeze state. -/
theorem suspend_system_run (env : Env) (opts : HibernateOptions) (s : St)
    (h1 : env.snapDevNewOk = true) (h2 : env.freezeOk = true) :
    SuspendConductor.suspend_system env opts s =
      SuspendConductor.snapshot_and_save env opts (addEvent s .freezeUserspace) := by
  obtain ⟨e1, e2, e3, e4, e5, e6, e7, e8, e9, e10, e11, e12, e13, e14, e15,
    e16, e17, e18, e19, e20, e21, e22, e23, e24, e25, e26, e27, e28, e29,
    e30, e31, e32, e33, e34, e35, e36, e37, e38, e39, e40⟩ := env
  simp only at h1 h2
  subst h1 h2
  rfl

/-- Full evaluation of the drain when the disk stats are sound. -/
theorem finish_attempt_spec (opts : HibernateOptions) (bfree blocks : Nat)
    (r : Outcome Unit) (s1 : St) (hb : blocks ≠ 0) :
    SuspendConductor.finish_attempt opts { f_bfree := bfree, f_blocks := blocks } r s1 =
      (r, addEvent (addEvent (addEvent (addEvent { s1 with logSink := .syslog }
            (.redirectLog .syslog))
            (.replayLogs (r.isOk && !opts.dryRun) (!opts.dryRun)))
            .readAndSendMetrics)
            (.diskPressureCheck
              (decide (bfree * 100 % 2 ^ 64 / blocks < LOW_DISK_FREE_THRESHOLD_PERCENT)))) := by
  simp only [SuspendConductor.finish_attempt, SuspendConductor.delete_data_if_disk_full]
  rw [if_neg hb]
  by_cases hlt : bfree * 100 % 2 ^ 64 / blocks < LOW_DISK_FREE_THRESHOLD_PERCENT
  · simp only [if_pos hlt, decide_eq_true hlt]
  · simp only [if_neg hlt, decide_eq_false hlt]

/-- The drain returns the inner result unchanged, unless the u64
division in the disk check panics. -/
theorem finish_fst (opts : HibernateOptions) (fs : FsStats)
    (r : Outcome Unit) (s1 : St) :
    (SuspendConductor.finish_attempt opts fs r s1).1 =
      if fs.f_blocks = 0 then .panicked "attempt to divide by zero" else r := by
  unfold SuspendConductor.finish_attempt SuspendConductor.delete_data_if_disk_full
  by_cases hb : fs.f_blocks = 0
  all_goals by_cases hlt : fs.f_bfree * 100 % 18446744073709551616 / fs.f_blocks <
    LOW_DISK_FREE_THRESHOLD_PERCENT
  all_goals simp [hb, hlt]

/-- The drain never touches the on-disk cookie. -/
theorem finish_cookie (opts : HibernateOptions) (fs : FsStats)
    (r : Outcome Unit) (s1 : St) :
    (SuspendConductor.finish_attempt opts fs r s1).2.cookie = s1.cookie := by
  unfold SuspendConductor.finish_attempt SuspendConductor.delete_data_if_disk_full
  split
  · simp [addEvent]
  · by_cases hlt : fs.f_bfree * 100 % 18446744073709551616 / fs.f_blocks <
        LOW_DISK_FREE_THRESHOLD_PERCENT <;>
      simp [hlt, addEvent]

/-- The drain only appends events to the trace. -/
theorem finish_mem (opts : HibernateOptions) (fs : FsStats)
    (r : Outcome Unit) (s1 : St) (e : Event) (he : e ∈ s1.trace) :
    e ∈ (SuspendConductor.finish_attempt opts fs r s1).2.trace := by
  unfold SuspendConductor.finish_attempt SuspendConductor.delete_data_if_disk_full
  by_cases hb : fs.f_blocks = 0
  all_goals by_cases hlt : fs.f_bfree * 100 % 18446744073709551616 / fs.f_blocks <
    LOW_DISK_FREE_THRESHOLD_PERCENT
  all_goals simp [hb, hlt, addEvent, he]

/-- Inversion of a successful drain: the inner result was a success, the
stats were sound, and the final trace is the inner trace plus the four
drain events. -/
theorem finish_ok_inv (opts : HibernateOptions) (fs : FsStats)
    (r : Outcome Unit) (s1 : St) (a : Unit) (st : St)
    (h : SuspendConductor.finish_attempt opts fs r s1 = (.ok a, st)) :
    r = .ok a ∧ fs.f_blocks ≠ 0 ∧
      st.trace = s1.trace ++
        [.redirectLog .syslog,
         .replayLogs (r.isOk && !opts.dryRun) (!opts.dryRun),
         .readAndSendMetrics,
         .diskPressureCheck
           (decide (fs.f_bfree * 100 % 2 ^ 64 / fs.f_blocks <
             LOW_DISK_FREE_THRESHOLD_PERCENT))] := by
  by_cases hb : fs.f_blocks = 0
  · have := finish_fst opts fs r s1
    rw [h, if_pos hb] at this
    exact absurd this (by simp)
  · obtain ⟨bfree, blocks⟩ := fs
    simp only at hb
    rw [finish_attempt_spec opts bfree blocks r s1 hb] at h
    injection h with h1 h2
    subst h1
    refine ⟨rfl, hb, ?_⟩
    rw [← h2]
    simp [addEvent, List.append_assoc]

theorem move_image_frame (env : Env) (mi sz : Int) (s : St) (r : Outcome Unit)
    (s' : St) (h : SuspendConductor.move_image env mi sz s = (r, s')) :
    s'.cookie = s.cookie ∧ s'.trace = s.trace ∧ s'.logSink = s.logSink := by
  unfold SuspendConductor.move_image SuspendConductor.move_image_stages at h
  repeat' (split at h)
  all_goals (injection h with h1 h2; subst h2; simp [addMover])

theorem write_image_frame (env : Env) (s : St) (r : Outcome Unit) (s' : St)
    (h : SuspendConductor.write_image env s = (r, s')) :
    s'.cookie = s.cookie ∧ s'.trace = s.trace ∧ s'.logSink = s.logSink := by
  unfold SuspendConductor.write_image at h
  rcases hg : env.getImageSizeR with _ | sz
  · simp only [hg] at h
    injection h with h1 h2
    subst h2
    exact ⟨rfl, rfl, rfl⟩
  · simp only [hg] at h
    rcases hm : SuspendConductor.move_image env env.splitterMetaInit sz s with ⟨r1, s1⟩
    simp only [hm] at h
    obtain ⟨hc, ht, hl⟩ := move_image_frame env env.splitterMetaInit sz s r1 s1 hm
    rcases r1 with a | e | m
    · simp only [] at h
      split at h
      · injection h with h1 h2
        subst h2
        exact ⟨hc, ht, hl⟩
      · injection h with h1 h2
        subst h2
        exact ⟨hc, ht, hl⟩
    · simp only [] at h
      injection h with h1 h2
      subst h2
      exact ⟨hc, ht, hl⟩
    · simp only [] at h
      injection h with h1 h2
      subst h2
      exact ⟨hc, ht, hl⟩

/-- The cookie-clear after the fork (claim C1's core): on any path
through `snapshot_and_save` that does not run the power-off primitive,
if the clear write succeeds and the cookie was `NoResume` on entry, the
cookie afterwards is `NoResume`. -/
theorem sas_cookie (env : Env) (opts : HibernateOptions) (s : St)
    (r : Outcome Unit) (s' : St)
    (h : SuspendConductor.snapshot_and_save env opts s = (r, s'))
    (hclr : env.cookieClearOk = true) (hcook : s.cookie = .NoResume)
    (hpow : Event.powerOff ∉ s'.trace) :
    s'.cookie = .NoResume := by
  unfold SuspendConductor.snapshot_and_save SuspendConductor.clear_cookie_step at h
  rcases hbp : env.blockPathOk with _ | _
  · simp [hbp] at h
    simp_all
  · rcases hatomic : env.atomicSnapshotR with _ | b
    · simp [hbp, hatomic] at h
      simp_all
    · simp only [hbp, hatomic, Bool.not_true] at h
      rcases b with _ | _
      · simp [hclr] at h
        obtain ⟨h1, h2⟩ := h
        subst h2
        rfl
      · rcases hwi : SuspendConductor.write_image env (addEvent s .atomicSnapshot)
          with ⟨r1, s1⟩
        simp only [hwi] at h
        obtain ⟨hc, ht, hl⟩ := write_image_frame _ _ _ _ hwi
        rcases r1 with a | e | m
        · simp only [] at h
          repeat' (split at h)
          all_goals (injection h with h1 h2; subst h2; simp_all [addEvent])
        · simp only [] at h
          injection h with h1 h2
          subst h2
          simp_all [addEvent]
        · simp only [] at h
          injection h with h1 h2
          subst h2
          simp_all [addEvent]

/-- C8: if all calls before the update-engine gate succeed (including the
soft attempt logging) and the update engine does not report the idle
state, `hibernate()` returns the `UpdateEngineBusy` error (with context
"Update engine is active") and the state is untouched: no userspace
freeze happened (empty trace) and the on-disk cookie is unchanged. -/
theorem c8_update_engine_busy (env : Env) (opts : HibernateOptions)
    (c : CookieValue) (hpre : preGateOk env) (hlog : env.logAttemptOk = true)
    (hgate : env.updateEngineIdle = some false) :
    SuspendConductor.hibernate env opts (initSt c) =
      (.err { kind := .updateEngineBusy, contexts := ["Update engine is active"] },
       initSt c) := by
  obtain ⟨h1, h3, h4, h5, h6, h7, h8, h9, h10, h11, h12⟩ := hpre
  obtain ⟨e1, e2, e3, e4, e5, e6, e7, e8, e9, e10, e11, e12, e13, e14, e15,
    e16, e17, e18, e19, e20, e21, e22, e23, e24, e25, e26, e27, e28, e29,
    e30, e31, e32, e33, e34, e35, e36, e37, e38, e39, e40⟩ := env
  simp only at h1 h3 h4 h5 h6 h7 h8 h9 h10 h11 h12 hlog hgate
  rcases e4 with _ | lv
  · simp at h4
  · subst h1 h3 h5 h6 h7 h8 h9 h10 h11 h12 hlog hgate
    rfl

/-- C8 witness: the gate theorem applied at a concrete oracle. -/
theorem c8_update_engine_busy_witness :
    SuspendConductor.hibernate { okEnv with updateEngineIdle := some false }
        { dryRun := false } (initSt .NoResume) =
      (.err { kind := .updateEngineBusy, contexts := ["Update engine is active"] },
       initSt .NoResume) :=
  c8_update_engine_busy _ _ _
    ⟨rfl, rfl, rfl, rfl, rfl, rfl, rfl, rfl, rfl, rfl, rfl⟩ rfl rfl

/-- C2: at the failing input (`f_bfree = 7`, `f_blocks = 100`, so the
free percentage is 7 < 10), `delete_data_if_disk_full` only records the
disk-pressure decision: it emits no `unlinkFile` event, so neither the
hiber file nor the metadata file is unlinked (the unlinking is a TODO in
the source). -/
theorem c2_low_disk_no_unlink (s : St) :
    SuspendConductor.delete_data_if_disk_full { f_bfree := 7, f_blocks := 100 } s =
      (.ok (), { s with trace := s.trace ++ [.diskPressureCheck true] }) := by
  rfl

/-- C1 counterexample: with a fully successful oracle and `dry_run =
false`, the run reaches the fork-point (the atomic-snapshot event is in
the trace) and the power-off primitive returns with an error; that error
propagates out of `hibernate()` before the cookie-clear, so the cookie
observed on disk is `ResumeReady`, not `NoResume`. -/
theorem c1_cookie_counterexample :
    Event.atomicSnapshot ∈
      (SuspendConductor.hibernate okEnv { dryRun := false } (initSt .NoResume)).2.trace ∧
    (SuspendConductor.hibernate okEnv { dryRun := false } (initSt .NoResume)).1 =
      .err { kind := .shutdown, contexts := ["Failed to shut down"] } ∧
    (SuspendConductor.hibernate okEnv { dryRun := false } (initSt .NoResume)).2.cookie =
      .ResumeReady := by
  decide

/-- C1 amended: for every call to `hibernate()` that reaches the
fork-point (the preparation, freeze, and atomic-snapshot ioctl all
complete) with the on-disk cookie at `NoResume`, if the power-off
primitive is never invoked (resume path, dry-run, or a failure before
power-off) and the final cookie-clear write succeeds, the cookie observed
on disk when `hibernate()` returns is `NoResume`.  (On the non-dry-run
path where the power-off primitive returns with an error, the error
propagates before the cookie-clear and the cookie remains `ResumeReady`,
per the counterexample.) -/
theorem c1_cookie_amended (env : Env) (opts : HibernateOptions)
    (hpre : preGateOk env) (hmid : midOk env)
    (hsnap : env.snapDevNewOk = true) (hfrz : env.freezeOk = true) (b : Bool)
    (hfork : env.atomicSnapshotR = some b)
    (hclr : env.cookieClearOk = true)
    (hpow : Event.powerOff ∉
      (SuspendConductor.hibernate env opts (initSt .NoResume)).2.trace) :
    (SuspendConductor.hibernate env opts (initSt .NoResume)).2.cookie = .NoResume := by
  rw [hibernate_run env opts .NoResume env.logAttemptOk hpre hmid rfl] at hpow ⊢
  rcases hss : SuspendConductor.suspend_system env opts
      (preSt .NoResume env.logAttemptOk) with ⟨r1, s1⟩
  have hss2 := hss
  rw [suspend_system_run env opts _ hsnap hfrz] at hss2
  have hcook1 :
      (addEvent (preSt .NoResume env.logAttemptOk) .freezeUserspace).cookie =
        .NoResume := rfl
  rcases r1 with a | e | m
  · rw [hss] at hpow
    rw [run_tail_ok] at hpow ⊢
    rw [finish_cookie]
    exact sas_cookie env opts _ _ _ hss2 hclr hcook1
      (fun hm => hpow (finish_mem _ _ _ _ _ hm))
  · rw [hss] at hpow
    rw [run_tail_err] at hpow ⊢
    rw [finish_cookie]
    exact sas_cookie env opts _ _ _ hss2 hclr hcook1
      (fun hm => hpow (finish_mem _ _ _ _ _ hm))
  · rw [hss] at hpow
    rw [run_tail_panic] at hpow ⊢
    exact sas_cookie env opts _ _ _ hss2 hclr hcook1 hpow

/-- C1 amended witness: the resume path at a concrete oracle. -/
theorem c1_cookie_amended_witness :
    (SuspendConductor.hibernate { okEnv with atomicSnapshotR := some false }
        { dryRun := false } (initSt .NoResume)).2.cookie = .NoResume :=
  c1_cookie_amended { okEnv with atomicSnapshotR := some false }
    { dryRun := false }
    ⟨rfl, rfl, rfl, rfl, rfl, rfl, rfl, rfl, rfl, rfl, rfl⟩
    ⟨rfl, rfl, rfl, rfl, rfl, rfl, rfl, rfl⟩ rfl rfl false rfl rfl (by decide)

theorem lor_one_and_one (x : Nat) : (x ||| 1) &&& 1 ≠ 0 := by
  have h1 : (x ||| 1).testBit 0 = true := by
    rw [Nat.testBit_lor]
    simp
  rw [Nat.testBit_zero] at h1
  simp only [decide_eq_true_eq] at h1
  rw [Nat.and_one_is_mod]
  omega

/-- C10: when the splitter's `meta_size` is zero on entry and the
one-page header-probe transfer completes but leaves `meta_size` still
zero, `move_image` panics on its assertion instead of returning an error
value. -/
theorem c10_meta_assert_panics (env : Env) (sz : Int) (s : St)
    (hp : env.probeMoverOk = true) (h0 : env.metaAfterProbe = 0) :
    (SuspendConductor.move_image env 0 sz s).1 =
      .panicked "assertion failed: splitter.meta_size != 0" := by
  obtain ⟨e1, e2, e3, e4, e5, e6, e7, e8, e9, e10, e11, e12, e13, e14, e15,
    e16, e17, e18, e19, e20, e21, e22, e23, e24, e25, e26, e27, e28, e29,
    e30, e31, e32, e33, e34, e35, e36, e37, e38, e39, e40⟩ := env
  simp only at hp h0
  subst hp h0
  rfl

/-- C10 witness. -/
theorem c10_meta_assert_panics_witness :
    (SuspendConductor.move_image { okEnv with metaAfterProbe := 0 }
        0 268435456 (initSt .NoResume)).1 =
      .panicked "assertion failed: splitter.meta_size != 0" :=
  c10_meta_assert_panics { okEnv with metaAfterProbe := 0 }
    268435456 (initSt .NoResume) rfl rfl

/-- C6: the staged mover parameters of `move_image`.  When the splitter's
`meta_size` is zero on entry, first exactly one page is moved (length,
source chunk and destination chunk all `page_size`); the second mover
then moves `meta_size - page_size` bytes (`meta_size` as parsed by the
splitter) — otherwise the full `meta_size` — in destination chunks of
`page_size * BUFFER_PAGES`; and the final mover moves
`image_size - meta_size` bytes with its output length padded
(`padOutput = true`). -/
theorem c6_mover_lengths (env : Env) (mi sz : Int) (s : St)
    (hp : env.probeMoverOk = true) (hh : env.headerMoverOk = true)
    (hb : env.bodyMoverOk = true)
    (hmh : env.metaAfterHeader = (if mi = 0 then env.metaAfterProbe else mi))
    (hma : mi = 0 → env.metaAfterProbe ≠ 0) :
    (SuspendConductor.move_image env mi sz s).1 = .ok () ∧
    (SuspendConductor.move_image env mi sz s).2.movers = s.movers ++
      (if mi = 0 then
        [⟨env.pageSize, env.pageSize, env.pageSize, false⟩,
         ⟨env.metaAfterProbe - env.pageSize, env.pageSize,
          env.pageSize * BUFFER_PAGES, false⟩,
         ⟨sz - env.metaAfterProbe, env.pageSize, env.pageSize * BUFFER_PAGES, true⟩]
       else
        [⟨mi, env.pageSize, env.pageSize * BUFFER_PAGES, false⟩,
         ⟨sz - mi, env.pageSize, env.pageSize * BUFFER_PAGES, true⟩]) := by
  obtain ⟨e1, e2, e3, e4, e5, e6, e7, e8, e9, e10, e11, e12, e13, e14, e15,
    e16, e17, e18, e19, e20, e21, e22, e23, e24, e25, e26, e27, e28, e29,
    e30, e31, e32, e33, e34, e35, e36, e37, e38, e39, e40⟩ := env
  simp only at hp hh hb hmh hma
  subst hp hh hb hmh
  by_cases hmi : mi = 0
  · subst hmi
    have hne : e31 ≠ 0 := hma rfl
    unfold SuspendConductor.move_image SuspendConductor.move_image_stages
    simp [hne, addMover]
  · unfold SuspendConductor.move_image SuspendConductor.move_image_stages
    simp [hmi, addMover]

/-- C6 witness: scenario S5 (header parses to 9000 bytes, page size
4096). -/
theorem c6_mover_lengths_witness :
    (SuspendConductor.move_image okEnv 0 268435456 (initSt .NoResume)).1 = .ok () ∧
    (SuspendConductor.move_image okEnv 0 268435456 (initSt .NoResume)).2.movers =
      (initSt .NoResume).movers ++
      (if (0 : Int) = 0 then
        [⟨okEnv.pageSize, okEnv.pageSize, okEnv.pageSize, false⟩,
         ⟨okEnv.metaAfterProbe - okEnv.pageSize, okEnv.pageSize,
          okEnv.pageSize * BUFFER_PAGES, false⟩,
         ⟨268435456 - okEnv.metaAfterProbe, okEnv.pageSize,
          okEnv.pageSize * BUFFER_PAGES, true⟩]
       else
        [⟨0, okEnv.pageSize, okEnv.pageSize * BUFFER_PAGES, false⟩,
         ⟨268435456 - 0, okEnv.pageSize, okEnv.pageSize * BUFFER_PAGES, true⟩]) :=
  c6_mover_lengths okEnv 0 268435456 (initSt .NoResume) rfl rfl rfl
    (by decide) (fun _ => by decide)

/-- C3: whenever `write_image` returns success, the recorded metadata has
a nonzero authentication tag, the VALID flag bit set, and an image size
equal to the size reported by the snapshot device's `get_image_size`. -/
theorem c3_write_image_post (env : Env) (s : St) (st : St)
    (h : SuspendConductor.write_image env s = (.ok (), st)) :
    st.metadata.dataTag ≠ zeroTag ∧
    st.metadata.flags &&& META_FLAG_VALID ≠ 0 ∧
    env.getImageSizeR = some st.metadata.imageSize := by
  unfold SuspendConductor.write_image at h
  rcases hg : env.getImageSizeR with _ | sz
  · simp only [hg] at h
    simp at h
  · simp only [hg] at h
    rcases hm : SuspendConductor.move_image env env.splitterMetaInit sz s
      with ⟨r1, s1⟩
    simp only [hm] at h
    rcases r1 with a | e | m
    · simp only [] at h
      split at h
      · simp at h
      · next htag =>
        injection h with h1 h2
        subst h2
        refine ⟨by simpa using htag, ?_, rfl⟩
        simpa [META_FLAG_VALID] using lor_one_and_one s1.metadata.flags
    · simp at h
    · simp at h

/-- C3 witness. -/
theorem c3_write_image_post_witness :
    (SuspendConductor.write_image okEnv (initSt .NoResume)).2.metadata.dataTag ≠ zeroTag ∧
    (SuspendConductor.write_image okEnv (initSt .NoResume)).2.metadata.flags &&&
      META_FLAG_VALID ≠ 0 ∧
    okEnv.getImageSizeR =
      some (SuspendConductor.write_image okEnv (initSt .NoResume)).2.metadata.imageSize :=
  c3_write_image_post okEnv (initSt .NoResume)
    (SuspendConductor.write_image okEnv (initSt .NoResume)).2 (by decide)

/-- Sufficient oracle conditions for the image-write pipeline to
succeed: the image-size ioctl answers, all three movers succeed, the
parsed header size is nonzero, and the splitter produces a nonzero
authentication tag. -/
def imageOk (env : Env) : Prop :=
  (∃ sz, env.getImageSizeR = some sz) ∧
  env.probeMoverOk = true ∧ env.headerMoverOk = true ∧ env.bodyMoverOk = true ∧
  (env.splitterMetaInit = 0 → env.metaAfterProbe ≠ 0) ∧
  env.tagAfterMove ≠ zeroTag

theorem move_image_ok (env : Env) (mi sz : Int) (s : St)
    (hp : env.probeMoverOk = true) (hh : env.headerMoverOk = true)
    (hb : env.bodyMoverOk = true)
    (hma : (if mi = 0 then env.metaAfterProbe else mi) ≠ 0) :
    (SuspendConductor.move_image env mi sz s).1 = .ok () ∧
    (SuspendConductor.move_image env mi sz s).2.metadata.dataTag =
      env.tagAfterMove := by
  by_cases hmi : mi = 0
  · subst hmi
    rw [if_pos rfl] at hma
    unfold SuspendConductor.move_image SuspendConductor.move_image_stages
    simp [hp, hh, hb, hma, addMover]
  · rw [if_neg hmi] at hma
    unfold SuspendConductor.move_image SuspendConductor.move_image_stages
    simp [hp, hh, hb, hmi, hma, addMover]

theorem write_image_ok (env : Env) (s : St) (hio : imageOk env) :
    (SuspendConductor.write_image env s).1 = .ok () := by
  obtain ⟨⟨sz, hg⟩, hp, hh, hb, hma, htag⟩ := hio
  have hma2 : (if env.splitterMetaInit = 0 then env.metaAfterProbe
      else env.splitterMetaInit) ≠ 0 := by
    by_cases hmi : env.splitterMetaInit = 0
    · rw [if_pos hmi]; exact hma hmi
    · rw [if_neg hmi]; exact hmi
  obtain ⟨h1, h2⟩ := move_image_ok env env.splitterMetaInit sz s hp hh hb hma2
  unfold SuspendConductor.write_image
  rw [hg]
  simp only []
  rcases hm : SuspendConductor.move_image env env.splitterMetaInit sz s
    with ⟨r1, s1⟩
  rw [hm] at h1 h2
  simp only [] at h1 h2
  subst h1
  simp only []
  rw [if_neg (by rw [h2]; exact htag)]

/-- Full characterization of the suspend branch of `snapshot_and_save`
when everything through the cookie write succeeds: result, trace and
final cookie as functions of `dry_run`, the metrics-flush outcome and the
cookie-clear outcome. -/
theorem sas_suspend_run (env : Env) (opts : HibernateOptions) (s : St)
    (hbp : env.blockPathOk = true) (hat : env.atomicSnapshotR = some true)
    (hio : imageOk env) (hrw : env.rewindOk = true)
    (hmw : env.metaWriteOk = true) (hcr : env.cookieReadyOk = true) :
    (SuspendConductor.snapshot_and_save env opts s).1 =
      (if opts.dryRun then
        (if env.cookieClearOk then .ok ()
         else .err { kind := .external "set_hibernate_cookie",
                     contexts := ["Failed to clear hibernate cookie"] })
       else .err { kind := .shutdown, contexts := ["Failed to shut down"] }) ∧
    (SuspendConductor.snapshot_and_save env opts s).2.trace =
      s.trace ++ [.atomicSnapshot, .metadataWrite, .cookieWrite .ResumeReady,
        (if env.metricsFlushOk then Event.metricsFlush
         else .warned "Failed to flush suspend metrics"),
        .redirectLog .memory] ++
      (if opts.dryRun then
        (if env.cookieClearOk then [Event.cookieWrite .NoResume] else [])
       else [Event.powerOff]) ∧
    (SuspendConductor.snapshot_and_save env opts s).2.cookie =
      (if opts.dryRun ∧ env.cookieClearOk = true then .NoResume
       else .ResumeReady) := by
  have hok := write_image_ok env (addEvent s .atomicSnapshot) hio
  unfold SuspendConductor.snapshot_and_save SuspendConductor.clear_cookie_step
  simp only [hbp, hat, Bool.not_true]
  rcases hwi : SuspendConductor.write_image env (addEvent s .atomicSnapshot)
    with ⟨r1, s1⟩
  rw [hwi] at hok
  simp only [] at hok
  subst hok
  obtain ⟨hc1, ht1, hl1⟩ := write_image_frame _ _ _ _ hwi
  simp only [addEvent] at ht1
  by_cases hd : opts.dryRun
  all_goals by_cases hf : env.metricsFlushOk
  all_goals by_cases hc : env.cookieClearOk
  all_goals simp [hrw, hmw, hcr, hd, hf, hc, addEvent, ht1, List.append_assoc]

/-- C7: with `dry_run = true` and an otherwise fully successful attempt,
the suspend path runs to just before power-off: the power-off event never
occurs, the cookie is written `ResumeReady` then `NoResume` (transitions
NoResume → ResumeReady → NoResume from the initial `NoResume`),
`hibernate()` returns success, and the final on-disk cookie is
`NoResume`. -/
theorem c7_dry_run (env : Env) (opts : HibernateOptions)
    (hpre : preGateOk env) (hmid : midOk env)
    (hsnap : env.snapDevNewOk = true) (hfrz : env.freezeOk = true)
    (hbp : env.blockPathOk = true) (hat : env.atomicSnapshotR = some true)
    (hio : imageOk env) (hrw : env.rewindOk = true)
    (hmw : env.metaWriteOk = true) (hcr : env.cookieReadyOk = true)
    (hd : opts.dryRun = true) (hclr : env.cookieClearOk = true)
    (hblocks : env.fsBlocks ≠ 0) :
    (SuspendConductor.hibernate env opts (initSt .NoResume)).1 = .ok () ∧
    Event.powerOff ∉ (SuspendConductor.hibernate env opts (initSt .NoResume)).2.trace ∧
    cookieWrites (SuspendConductor.hibernate env opts (initSt .NoResume)).2.trace =
      [.ResumeReady, .NoResume] ∧
    (SuspendConductor.hibernate env opts (initSt .NoResume)).2.cookie = .NoResume := by
  rw [hibernate_run env opts .NoResume env.logAttemptOk hpre hmid rfl,
      suspend_system_run env opts (preSt .NoResume env.logAttemptOk) hsnap hfrz]
  obtain ⟨hfst, htr, hck⟩ := sas_suspend_run env opts
    (addEvent (preSt .NoResume env.logAttemptOk) .freezeUserspace)
    hbp hat hio hrw hmw hcr
  rcases hss : SuspendConductor.snapshot_and_save env opts
    (addEvent (preSt .NoResume env.logAttemptOk) .freezeUserspace) with ⟨r1, s1⟩
  rw [hss] at hfst htr hck
  simp only [hd, hclr] at hfst htr hck
  simp only [if_true, ite_true, and_self, true_and] at hfst htr hck
  subst hfst
  rw [run_tail_ok, finish_attempt_spec opts env.fsBfree env.fsBlocks _ s1 hblocks]
  refine ⟨rfl, ?_, ?_, ?_⟩
  · simp only [addEvent]
    rw [htr]
    by_cases hbl : env.logAttemptOk = true <;>
      by_cases hf : env.metricsFlushOk = true <;>
      simp [preSt, addEvent, hbl, hf]
  · simp only [addEvent, cookieWrites]
    rw [htr]
    by_cases hbl : env.logAttemptOk = true <;>
      by_cases hf : env.metricsFlushOk = true <;>
      simp [preSt, addEvent, hbl, hf, cookieWrites, List.filterMap_append]
  · simp only [addEvent]
    exact hck

/-- C7 witness: scenario S1 (dry run, 256 MiB image). -/
theorem c7_dry_run_witness :
    (SuspendConductor.hibernate okEnv { dryRun := true } (initSt .NoResume)).1 = .ok () ∧
    Event.powerOff ∉
      (SuspendConductor.hibernate okEnv { dryRun := true } (initSt .NoResume)).2.trace ∧
    cookieWrites
      (SuspendConductor.hibernate okEnv { dryRun := true } (initSt .NoResume)).2.trace =
        [.ResumeReady, .NoResume] ∧
    (SuspendConductor.hibernate okEnv { dryRun := true } (initSt .NoResume)).2.cookie =
      .NoResume :=
  c7_dry_run okEnv { dryRun := true }
    ⟨rfl, rfl, rfl, rfl, rfl, rfl, rfl, rfl, rfl, rfl, rfl⟩
    ⟨rfl, rfl, rfl, rfl, rfl, rfl, rfl, rfl⟩ rfl rfl rfl rfl
    ⟨⟨268435456, rfl⟩, rfl, rfl, rfl, fun _ => by decide, by decide⟩
    rfl rfl rfl rfl rfl (by decide)

/-- C9: for every attempt that reaches the inner suspend call
(`suspend_system`), whether it returns success or an error, `hibernate()`
redirects logs back to syslog, invokes `replay_logs` with
`push_to_syslog = (inner result ok && !dry_run)` and
`tag_as_resume = !dry_run`, reads and sends the buffered metrics, and
runs the disk-pressure check, all before returning the inner result
unchanged. -/
theorem c9_drain (env : Env) (opts : HibernateOptions) (c : CookieValue)
    (hpre : preGateOk env) (hmid : midOk env) (hblocks : env.fsBlocks ≠ 0)
    (r : Outcome Unit) (s1 : St)
    (hss : SuspendConductor.suspend_system env opts
      (preSt c env.logAttemptOk) = (r, s1))
    (hnp : ∀ m, r ≠ .panicked m) :
    SuspendConductor.hibernate env opts (initSt c) =
      (r, addEvent (addEvent (addEvent (addEvent { s1 with logSink := .syslog }
            (.redirectLog .syslog))
            (.replayLogs (r.isOk && !opts.dryRun) (!opts.dryRun)))
            .readAndSendMetrics)
            (.diskPressureCheck
              (decide (env.fsBfree * 100 % 2 ^ 64 / env.fsBlocks <
                LOW_DISK_FREE_THRESHOLD_PERCENT)))) := by
  rw [hibernate_run env opts c env.logAttemptOk hpre hmid rfl, hss]
  rcases r with a | e | m
  · rw [run_tail_ok, finish_attempt_spec opts env.fsBfree env.fsBlocks _ s1 hblocks]
  · rw [run_tail_err, finish_attempt_spec opts env.fsBfree env.fsBlocks _ s1 hblocks]
  · exact absurd rfl (hnp m)

/-- C9 witness. -/
theorem c9_drain_witness :
    SuspendConductor.hibernate okEnv { dryRun := false } (initSt .NoResume) =
      ((SuspendConductor.suspend_system okEnv { dryRun := false }
          (preSt .NoResume okEnv.logAttemptOk)).1,
       addEvent (addEvent (addEvent (addEvent
          { (SuspendConductor.suspend_system okEnv { dryRun := false }
              (preSt .NoResume okEnv.logAttemptOk)).2 with logSink := .syslog }
            (.redirectLog .syslog))
            (.replayLogs
              ((SuspendConductor.suspend_system okEnv { dryRun := false }
                 (preSt .NoResume okEnv.logAttemptOk)).1.isOk && !(false : Bool))
              (!(false : Bool))))
            .readAndSendMetrics)
            (.diskPressureCheck
              (decide (okEnv.fsBfree * 100 % 2 ^ 64 / okEnv.fsBlocks <
                LOW_DISK_FREE_THRESHOLD_PERCENT)))) :=
  c9_drain okEnv { dryRun := false } .NoResume
    ⟨rfl, rfl, rfl, rfl, rfl, rfl, rfl, rfl, rfl, rfl, rfl⟩
    ⟨rfl, rfl, rfl, rfl, rfl, rfl, rfl, rfl⟩ (by decide) _ _ rfl
    (fun m h => by
      have hv : (SuspendConductor.suspend_system okEnv { dryRun := false }
          (preSt .NoResume okEnv.logAttemptOk)).1 =
            .err { kind := .shutdown, contexts := ["Failed to shut down"] } := by
        decide
      rw [hv] at h
      exact Outcome.noConfusion h)

/-- The resume branch with a failing cookie-clear: the error (with its
context) is the result of `snapshot_and_save`. -/
theorem sas_resume_clear_fail (env : Env) (opts : HibernateOptions) (s : St)
    (hbp : env.blockPathOk = true) (hat : env.atomicSnapshotR = some false)
    (hclr : env.cookieClearOk = false) :
    (SuspendConductor.snapshot_and_save env opts s).1 =
      .err { kind := .external "set_hibernate_cookie",
             contexts := ["Failed to clear hibernate cookie"] } := by
  obtain ⟨e1, e2, e3, e4, e5, e6, e7, e8, e9, e10, e11, e12, e13, e14, e15,
    e16, e17, e18, e19, e20, e21, e22, e23, e24, e25, e26, e27, e28, e29,
    e30, e31, e32, e33, e34, e35, e36, e37, e38, e39, e40⟩ := env
  simp only at hbp hat hclr
  subst hbp hat hclr
  rfl

/-- C5 amended: a metrics-flush failure during the suspend branch is a
soft warning — the Conductor records the warning, still proceeds (to the
power-off call when not dry-run), and the return value of `hibernate()`
is unchanged.  A cookie-clear failure on the resume side is NOT soft: it
is returned from `hibernate()` as an error with the context
"Failed to clear hibernate cookie". -/
theorem c5_flush_soft_clear_hard (env : Env) (opts : HibernateOptions)
    (c : CookieValue) (hpre : preGateOk env) (hmid : midOk env)
    (hsnap : env.snapDevNewOk = true) (hfrz : env.freezeOk = true)
    (hbp : env.blockPathOk = true) (hblocks : env.fsBlocks ≠ 0) :
    (env.atomicSnapshotR = some true → imageOk env → env.rewindOk = true →
     env.metaWriteOk = true → env.cookieReadyOk = true →
      (Event.warned "Failed to flush suspend metrics" ∈
        (SuspendConductor.hibernate { env with metricsFlushOk := false }
          opts (initSt c)).2.trace ∧
       (opts.dryRun = false → Event.powerOff ∈
        (SuspendConductor.hibernate { env with metricsFlushOk := false }
          opts (initSt c)).2.trace) ∧
       (SuspendConductor.hibernate { env with metricsFlushOk := false }
          opts (initSt c)).1 =
       (SuspendConductor.hibernate { env with metricsFlushOk := true }
          opts (initSt c)).1)) ∧
    (env.atomicSnapshotR = some false → env.cookieClearOk = false →
      (SuspendConductor.hibernate env opts (initSt c)).1 =
        .err { kind := .external "set_hibernate_cookie",
               contexts := ["Failed to clear hibernate cookie"] }) := by
  constructor
  · intro hat hio hrw hmw hcr
    rw [hibernate_run { env with metricsFlushOk := false } opts c
          env.logAttemptOk hpre hmid rfl,
        hibernate_run { env with metricsFlushOk := true } opts c
          env.logAttemptOk hpre hmid rfl,
        suspend_system_run { env with metricsFlushOk := false } opts _ hsnap hfrz,
        suspend_system_run { env with metricsFlushOk := true } opts _ hsnap hfrz]
    obtain ⟨f1, f2, f3⟩ := sas_suspend_run { env with metricsFlushOk := false }
      opts (addEvent (preSt c env.logAttemptOk) .freezeUserspace)
      hbp hat hio hrw hmw hcr
    obtain ⟨t1, t2, t3⟩ := sas_suspend_run { env with metricsFlushOk := true }
      opts (addEvent (preSt c env.logAttemptOk) .freezeUserspace)
      hbp hat hio hrw hmw hcr
    rcases hsf : SuspendConductor.snapshot_and_save
        { env with metricsFlushOk := false } opts
        (addEvent (preSt c env.logAttemptOk) .freezeUserspace) with ⟨rf, sf⟩
    rcases hst : SuspendConductor.snapshot_and_save
        { env with metricsFlushOk := true } opts
        (addEvent (preSt c env.logAttemptOk) .freezeUserspace) with ⟨rt, st⟩
    rw [hsf] at f1 f2 f3
    rw [hst] at t1 t2 t3
    simp only [] at f1 f2 f3 t1 t2 t3
    by_cases hd : opts.dryRun = true
    · by_cases hc : env.cookieClearOk = true
      · simp only [hd, hc] at f1 t1
        simp at f1 t1
        subst f1
        subst t1
        rw [run_tail_ok, run_tail_ok]
        refine ⟨?_, ?_, ?_⟩
        · exact finish_mem _ _ _ _ _ (by rw [f2]; simp [hd, hc])
        · intro hdf
          rw [hdf] at hd
          exact absurd hd (by simp)
        · rw [finish_fst, finish_fst]
      · simp only [hd, hc] at f1 t1
        simp at f1 t1
        subst f1
        subst t1
        rw [run_tail_err, run_tail_err]
        refine ⟨?_, ?_, ?_⟩
        · exact finish_mem _ _ _ _ _ (by rw [f2]; simp [hd, hc])
        · intro hdf
          rw [hdf] at hd
          exact absurd hd (by simp)
        · rw [finish_fst, finish_fst]
    · simp only [hd] at f1 t1
      simp at f1 t1
      subst f1
      subst t1
      rw [run_tail_err, run_tail_err]
      refine ⟨?_, ?_, ?_⟩
      · exact finish_mem _ _ _ _ _ (by rw [f2]; simp [hd])
      · intro hdf
        exact finish_mem _ _ _ _ _ (by rw [f2]; simp [hd])
      · rw [finish_fst, finish_fst]
  · intro hat hclr
    rw [hibernate_run env opts c env.logAttemptOk hpre hmid rfl,
        suspend_system_run env opts _ hsnap hfrz]
    have hres := sas_resume_clear_fail env opts
      (addEvent (preSt c env.logAttemptOk) .freezeUserspace) hbp hat hclr
    rcases hss : SuspendConductor.snapshot_and_save env opts
        (addEvent (preSt c env.logAttemptOk) .freezeUserspace) with ⟨r1, s1⟩
    rw [hss] at hres
    simp only [] at hres
    subst hres
    rw [run_tail_err, finish_fst]
    simp [hblocks]

/-- C5 counterexample: two identical resume-side runs that differ only in
the cookie-clear outcome return an error versus success, so the return
value of `hibernate()` IS affected by a cookie-clear failure,
contradicting the claim that it is a soft warning. -/
theorem c5_clear_error_counterexample :
    (SuspendConductor.hibernate
        { okEnv with atomicSnapshotR := some false, cookieClearOk := false }
        { dryRun := false } (initSt .ResumeReady)).1 =
      .err { kind := .external "set_hibernate_cookie",
             contexts := ["Failed to clear hibernate cookie"] } ∧
    (SuspendConductor.hibernate { okEnv with atomicSnapshotR := some false }
        { dryRun := false } (initSt .ResumeReady)).1 = .ok () := by
  decide

/-- C5 witness: the flush-failure part at a concrete oracle (suspend
branch, not dry-run). -/
theorem c5_flush_soft_clear_hard_witness :
    Event.warned "Failed to flush suspend metrics" ∈
      (SuspendConductor.hibernate { okEnv with metricsFlushOk := false }
        { dryRun := false } (initSt .NoResume)).2.trace ∧
    ((false : Bool) = false → Event.powerOff ∈
      (SuspendConductor.hibernate { okEnv with metricsFlushOk := false }
        { dryRun := false } (initSt .NoResume)).2.trace) ∧
    (SuspendConductor.hibernate { okEnv with metricsFlushOk := false }
        { dryRun := false } (initSt .NoResume)).1 =
    (SuspendConductor.hibernate { okEnv with metricsFlushOk := true }
        { dryRun := false } (initSt .NoResume)).1 :=
  (c5_flush_soft_clear_hard okEnv { dryRun := false } .NoResume
    ⟨rfl, rfl, rfl, rfl, rfl, rfl, rfl, rfl, rfl, rfl, rfl⟩
    ⟨rfl, rfl, rfl, rfl, rfl, rfl, rfl, rfl⟩ rfl rfl rfl (by decide)).1
    rfl ⟨⟨268435456, rfl⟩, rfl, rfl, rfl, fun _ => by decide, by decide⟩
    rfl rfl rfl

theorem suspend_not_ok (env : Env) (opts : HibernateOptions) (s : St)
    (hbad : ¬(env.snapDevNewOk = true ∧ env.freezeOk = true)) :
    (SuspendConductor.suspend_system env opts s).1.isOk = false := by
  unfold SuspendConductor.suspend_system
  rcases h1 : env.snapDevNewOk with _ | _
  · rfl
  · rcases h2 : env.freezeOk with _ | _
    · rfl
    · exact absurd ⟨h1, h2⟩ hbad

theorem hibernate_not_ok (env : Env) (opts : HibernateOptions) (s : St)
    (hbad : ¬(preGateOk env ∧ midOk env)) :
    (SuspendConductor.hibernate env opts s).1.isOk = false := by
  unfold SuspendConductor.hibernate
  rcases h1 : env.setupLvOk with _ | _
  · rfl
  rcases h2 : env.createLvSnapshotFilesOk with _ | _
  · rfl
  rcases hlv : env.isLvm with _ | lv
  · rfl
  rcases h4 : env.preallocHeaderOk with _ | _
  · rfl
  rcases h5 : env.preallocHiberOk with _ | _
  · rfl
  rcases h6 : env.preallocMetadataOk with _ | _
  · rfl
  rcases h7 : env.preallocLogResumeOk with _ | _
  · rfl
  rcases h8 : env.preallocMetricsResumeOk with _ | _
  · rfl
  rcases h9 : env.preallocMetricsSuspendOk with _ | _
  · rfl
  rcases h10 : env.openMetricsOk with _ | _
  · rfl
  rcases h11 : env.preallocLogSuspendOk with _ | _
  · rfl
  rcases hue : env.updateEngineIdle with _ | idle
  · rfl
  rcases hi : idle with _ | _
  · rfl
  rcases h13 : env.statsOk with _ | _
  · rfl
  rcases h14 : env.lockMemoryOk with _ | _
  · rfl
  rcases h15 : env.swappinessNewOk with _ | _
  · rfl
  rcases h16 : env.setSwappinessOk with _ | _
  · rfl
  rcases h17 : env.loadPublicKeyOk with _ | _
  · rfl
  rcases h18 : env.installKeyOk with _ | _
  · rfl
  rcases h19 : env.preallocMemOk with _ | _
  · rfl
  exact absurd
    ⟨⟨h1, h2, by rw [hlv]; rfl, h4, h5, h6, h7, h8, h9, h10, h11⟩,
     ⟨by rw [hue, hi], h13, h14, h15, h16, h17, h18, h19⟩⟩ hbad

/-- Trace shapes of a successful `snapshot_and_save`: the dry-run suspend
path (with the metrics flush succeeding or warning) or the resume
path. -/
theorem sas_ok_trace (env : Env) (opts : HibernateOptions) (s : St)
    (a : Unit) (s' : St)
    (h : SuspendConductor.snapshot_and_save env opts s = (.ok a, s')) :
    s'.trace = s.trace ++ [.atomicSnapshot, .metadataWrite,
      .cookieWrite .ResumeReady, .metricsFlush, .redirectLog .memory,
      .cookieWrite .NoResume] ∨
    s'.trace = s.trace ++ [.atomicSnapshot, .metadataWrite,
      .cookieWrite .ResumeReady, .warned "Failed to flush suspend metrics",
      .redirectLog .memory, .cookieWrite .NoResume] ∨
    s'.trace = s.trace ++ [.atomicSnapshot, .resetLog, .redirectLog .memory,
      .cookieWrite .NoResume] := by
  unfold SuspendConductor.snapshot_and_save SuspendConductor.clear_cookie_step at h
  rcases hbp : env.blockPathOk with _ | _
  · simp [hbp] at h
  · rcases hatomic : env.atomicSnapshotR with _ | b
    · simp [hbp, hatomic] at h
    · simp only [hbp, hatomic, Bool.not_true] at h
      rcases b with _ | _
      · rcases hclr : env.cookieClearOk with _ | _
        · simp [hclr] at h
        · simp [hclr] at h
          subst h
          simp [addEvent, List.append_assoc]
      · rcases hwi : SuspendConductor.write_image env (addEvent s .atomicSnapshot)
          with ⟨r1, s1⟩
        simp only [hwi] at h
        obtain ⟨hc, ht, hl⟩ := write_image_frame _ _ _ _ hwi
        simp only [addEvent] at ht
        rcases r1 with a1 | e1 | m1
        · simp only [] at h
          repeat' (split at h)
          all_goals injection h with h1 h2
          all_goals first
            | exact Outcome.noConfusion h1
            | (subst h2; simp [addEvent, ht, List.append_assoc])
        · simp at h
        · simp at h

/-- C4: in any successful run of `hibernate()`, the event trace contains
the filesystem sync strictly before `FREEZE_USERSPACE`,
`ATOMIC_SNAPSHOT` strictly after `FREEZE_USERSPACE`, every metadata
write strictly before setting the cookie to `ResumeReady`, and every
cookie write of `ResumeReady` strictly before any power-off call. -/
theorem c4_ordering (env : Env) (opts : HibernateOptions) (c : CookieValue)
    (st : St)
    (h : SuspendConductor.hibernate env opts (initSt c) = (.ok (), st)) :
    hibTraceOk st.trace := by
  by_cases hpm : preGateOk env ∧ midOk env
  case neg =>
    have hno := hibernate_not_ok env opts (initSt c) hpm
    rw [h] at hno
    simp [Outcome.isOk] at hno
  obtain ⟨hpre, hmid⟩ := hpm
  rw [hibernate_run env opts c env.logAttemptOk hpre hmid rfl] at h
  rcases hss : SuspendConductor.suspend_system env opts (preSt c env.logAttemptOk)
    with ⟨r1, s1⟩
  rw [hss] at h
  rcases r1 with a | e | m
  rotate_left
  · rw [run_tail_err] at h
    obtain ⟨hr, h2, h3⟩ := finish_ok_inv _ _ _ _ _ _ h
    exact Outcome.noConfusion hr
  · rw [run_tail_panic] at h
    injection h with h1 h2
    exact Outcome.noConfusion h1
  · rw [run_tail_ok] at h
    obtain ⟨hr, hblocks, htr⟩ := finish_ok_inv _ _ _ _ _ _ h
    by_cases hsf : env.snapDevNewOk = true ∧ env.freezeOk = true
    case neg =>
      have hno := suspend_not_ok env opts (preSt c env.logAttemptOk) hsf
      rw [hss] at hno
      simp [Outcome.isOk] at hno
    obtain ⟨hsnap, hfrz⟩ := hsf
    have hss2 := hss
    rw [suspend_system_run env opts _ hsnap hfrz] at hss2
    have htr1 := sas_ok_trace env opts _ a s1 hss2
    apply hibTraceChk_sound
    rw [htr]
    rcases htr1 with h1 | h1 | h1 <;>
      rw [h1] <;>
      by_cases hbl : env.logAttemptOk = true <;>
      simp [hbl, preSt, addEvent, hibTraceChk, pairOrdered, cookieWrites]

/-- C4 witness: the dry-run success at a concrete oracle. -/
theorem c4_ordering_witness :
    hibTraceOk
      (SuspendConductor.hibernate okEnv { dryRun := true } (initSt .NoResume)).2.trace :=
  c4_ordering okEnv { dryRun := true } .NoResume
    (SuspendConductor.hibernate okEnv { dryRun := true } (initSt .NoResume)).2
    (by decide)
